import Mathlib

/-!
Shallow embedding of the payload-targeting engine (`Targeter.cpp`) of the
QueensAero Arduino flight code, together with theorems checking its
specification.

Modelling conventions:
* C `double` arithmetic is idealised as real arithmetic, except where the
  distinction between finite values and the IEEE-754 special values
  (infinities, NaN) is what a property is about; there results live in
  `DVal`, which tags a finite real result or a special value, and
  `dvSub`/`dvDiv`/`dvLt`/`dsqrt` follow the IEEE-754 rules (a comparison
  involving NaN is false, x/0 is an infinity for x not 0 and NaN for 0/0,
  the square root of a negative radicand is NaN).
* The Arduino constant `PI` is `Real.pi`; `pow(x, 2.0)` is `x ^ 2`, and
  `pow(b, 0.5)` on the positive bases of the UTM formulas is `Real.sqrt b`.
* `millis()` is passed explicitly as a `now` parameter to every operation
  that reads it; the member reads relative to it keep the source's shape.
* The C cast `(int)` and the C `round` function follow C semantics
  (truncation toward zero, rounding half away from zero) on the in-range
  magnitudes that arise here.
-/

namespace Targeter

/-- Result of a C `double` computation: a finite real value or one of the
IEEE-754 special values. -/
inductive DVal where
  | fin (x : ℝ)
  | posInf
  | negInf
  | nan

/-- Whether a `double` result is a finite value. -/
def DVal.isFinite : DVal → Bool
  | .fin _ => true
  | _ => false

/-- IEEE-754 subtraction on `double` results: NaN propagates, and the
difference of same-signed infinities is NaN. -/
def dvSub : DVal → DVal → DVal
  | .fin x, .fin y => .fin (x - y)
  | .fin _, .posInf => .negInf
  | .fin _, .negInf => .posInf
  | .posInf, .fin _ => .posInf
  | .posInf, .negInf => .posInf
  | .negInf, .fin _ => .negInf
  | .negInf, .posInf => .negInf
  | _, _ => .nan

/-- IEEE-754 division on `double` results: division of a nonzero finite
value by zero gives a signed infinity, 0/0 gives NaN, NaN propagates, a
finite value over an infinity is 0, an infinity over an infinity is NaN. -/
noncomputable def dvDiv : DVal → DVal → DVal
  | .fin x, .fin y =>
      if y = 0 then (if 0 < x then .posInf else if x < 0 then .negInf else .nan)
      else .fin (x / y)
  | .posInf, .fin y => if y < 0 then .negInf else .posInf
  | .negInf, .fin y => if y < 0 then .posInf else .negInf
  | .fin _, .posInf => .fin 0
  | .fin _, .negInf => .fin 0
  | _, _ => .nan

/-- IEEE-754 `<` on `double` results: any comparison involving NaN is
false. -/
noncomputable def dvLt : DVal → DVal → Bool
  | .fin x, .fin y => decide (x < y)
  | .fin _, .posInf => true
  | .negInf, .fin _ => true
  | .negInf, .posInf => true
  | _, _ => false

/-- C `sqrt` on a `double`: NaN on a negative radicand. -/
noncomputable def dsqrt (x : ℝ) : DVal :=
  if x < 0 then .nan else .fin (Real.sqrt x)

/-- C cast `(int)` applied to a `double`: truncation toward zero (faithful
for the in-range magnitudes that arise here). -/
noncomputable def cIntCast (q : ℝ) : ℤ :=
  if 0 ≤ q then ⌊q⌋ else ⌈q⌉

/-- C `round` on a `double`: nearest integer, halfway cases away from
zero. -/
noncomputable def cround (x : ℝ) : ℝ :=
  if 0 ≤ x then ((⌊x + 1 / 2⌋ : ℤ) : ℝ) else ((⌈x - 1 / 2⌉ : ℤ) : ℝ)

/-- The member fields of the `Targeter` object: the latest aircraft
telemetry, the target description, and the stored diagnostic fields
`lateralError` and `timeToDrop` declared in `Targeter.h` (the spelling
`targetRaduis` is the source's). -/
structure State where
  currentLatitude : ℝ
  currentLongitude : ℝ
  currentAltitude : ℝ
  currentVelocity : ℝ
  currentHeading : ℝ
  currentDataAge : ℝ
  targetLatitude : ℝ
  targetLongitude : ℝ
  targetAltitude : ℝ
  targetRaduis : ℝ
  lateralError : ℝ
  timeToDrop : ℝ

/-- `Targeter::convertDecimalDegMinToDegree`: packed `DDDMM.mmmm` value to
decimal degrees; the C `(int)` cast truncates toward zero. -/
noncomputable def convertDecimalDegMinToDegree (decimalDegreeMin : ℝ) : ℝ :=
  let baseDegree : ℤ := cIntCast (decimalDegreeMin / 100)
  let baseDegMins : ℝ := decimalDegreeMin - 100 * (baseDegree : ℝ)
  (baseDegree : ℝ) + baseDegMins / 60

/-- `Targeter::convertHeadingToMathAngle`: compass degrees to standard math
degrees. -/
noncomputable def convertHeadingToMathAngle (heading : ℝ) : ℝ :=
  let angle := -1 * (heading - 90)
  if angle < 0 then 360 + angle else angle

/-- UTM zone computed in `Targeter::convertDeg2UTM`; the C `(int)` cast of
the already-integral `floor` result is the identity. -/
noncomputable def utmZone (lon : ℝ) : ℤ := ⌊lon / 6 + 31⌋

/-- The latitude-band letter ladder of `Targeter::convertDeg2UTM`. -/
noncomputable def utmLetter (lat : ℝ) : Char :=
  if lat < -72 then 'C'
  else if lat < -64 then 'D'
  else if lat < -56 then 'E'
  else if lat < -48 then 'F'
  else if lat < -40 then 'G'
  else if lat < -32 then 'H'
  else if lat < -24 then 'J'
  else if lat < -16 then 'K'
  else if lat < -8 then 'L'
  else if lat < 0 then 'M'
  else if lat < 8 then 'N'
  else if lat < 16 then 'P'
  else if lat < 24 then 'Q'
  else if lat < 32 then 'R'
  else if lat < 40 then 'S'
  else if lat < 48 then 'T'
  else if lat < 56 then 'U'
  else if lat < 64 then 'V'
  else if lat < 72 then 'W'
  else 'X'

/-- Raw easting of `Targeter::convertDeg2UTM` before centimeter rounding
(the assignment to `utmEasting` with its `+ 500000` false easting). -/
noncomputable def utmEastingRaw (lat lon : ℝ) : ℝ :=
  let z : ℝ := (utmZone lon : ℝ)
  0.5 * Real.log ((1 + Real.cos (lat * Real.pi / 180) *
          Real.sin (lon * Real.pi / 180 - (6 * z - 183) * Real.pi / 180)) /
        (1 - Real.cos (lat * Real.pi / 180) *
          Real.sin (lon * Real.pi / 180 - (6 * z - 183) * Real.pi / 180))) *
      0.9996 * 6399593.62 /
      Real.sqrt (1 + 0.0820944379 ^ 2 * Real.cos (lat * Real.pi / 180) ^ 2) *
      (1 + 0.0820944379 ^ 2 / 2 *
        (0.5 * Real.log ((1 + Real.cos (lat * Real.pi / 180) *
            Real.sin (lon * Real.pi / 180 - (6 * z - 183) * Real.pi / 180)) /
          (1 - Real.cos (lat * Real.pi / 180) *
            Real.sin (lon * Real.pi / 180 - (6 * z - 183) * Real.pi / 180)))) ^ 2 *
        Real.cos (lat * Real.pi / 180) ^ 2 / 3) +
    500000

/-- Raw northing of `Targeter::convertDeg2UTM` before the false-northing
adjustment and centimeter rounding. -/
noncomputable def utmNorthingRaw (lat lon : ℝ) : ℝ :=
  let z : ℝ := (utmZone lon : ℝ)
  (Real.arctan (Real.tan (lat * Real.pi / 180) /
        Real.cos (lon * Real.pi / 180 - (6 * z - 183) * Real.pi / 180)) -
      lat * Real.pi / 180) *
      0.9996 * 6399593.625 /
      Real.sqrt (1 + 0.006739496742 * Real.cos (lat * Real.pi / 180) ^ 2) *
      (1 + 0.006739496742 / 2 *
        (0.5 * Real.log ((1 + Real.cos (lat * Real.pi / 180) *
            Real.sin (lon * Real.pi / 180 - (6 * z - 183) * Real.pi / 180)) /
          (1 - Real.cos (lat * Real.pi / 180) *
            Real.sin (lon * Real.pi / 180 - (6 * z - 183) * Real.pi / 180)))) ^ 2 *
        Real.cos (lat * Real.pi / 180) ^ 2) +
    0.9996 * 6399593.625 *
      (lat * Real.pi / 180 -
        0.005054622556 * (lat * Real.pi / 180 + Real.sin (2 * lat * Real.pi / 180) / 2) +
        0.00004258201531 * (3 * (lat * Real.pi / 180 + Real.sin (2 * lat * Real.pi / 180) / 2) +
          Real.sin (2 * lat * Real.pi / 180) * Real.cos (lat * Real.pi / 180) ^ 2) / 4 -
        0.0000001674057895 *
          (5 * (3 * (lat * Real.pi / 180 + Real.sin (2 * lat * Real.pi / 180) / 2) +
            Real.sin (2 * lat * Real.pi / 180) * Real.cos (lat * Real.pi / 180) ^ 2) / 4 +
            Real.sin (2 * lat * Real.pi / 180) * Real.cos (lat * Real.pi / 180) ^ 2 *
              Real.cos (lat * Real.pi / 180) ^ 2) / 3)

/-- `Targeter::convertDeg2UTM`: decimal degrees to a UTM (easting,
northing) pair, with the 10,000,000 m false northing added when the band
letter precedes `M`, and both outputs rounded to the nearest centimeter. -/
noncomputable def convertDeg2UTM (lat lon : ℝ) : ℝ × ℝ :=
  let utmEasting := cround (utmEastingRaw lat lon * 100) * 0.01
  let utmNorthing := utmNorthingRaw lat lon
  let utmNorthing := if utmLetter lat < 'M' then utmNorthing + 10000000 else utmNorthing
  (utmEasting, cround (utmNorthing * 100) * 0.01)

/-- The constant `CORRECTION_FACTOR` of `Targeter.cpp`. -/
noncomputable def CORRECTION_FACTOR : ℝ := 0.9

/-- `Targeter::calculateLateralError`: perpendicular distance from the
target to the line through the current position along the current heading.
The final `double` division is IEEE division. -/
noncomputable def calculateLateralError (s : State) : DVal :=
  let cur := convertDeg2UTM (convertDecimalDegMinToDegree s.currentLatitude)
    (convertDecimalDegMinToDegree s.currentLongitude)
  let tgt := convertDeg2UTM (convertDecimalDegMinToDegree s.targetLatitude)
    (convertDecimalDegMinToDegree s.targetLongitude)
  let currentHeadingMathAngle := convertHeadingToMathAngle s.currentHeading
  let x1 := cur.1 + Real.cos (currentHeadingMathAngle / 180 * Real.pi) * 2000
  let y1 := cur.2 + Real.sin (currentHeadingMathAngle / 180 * Real.pi) * 2000
  let x2 := cur.1
  let y2 := cur.2
  let x0 := tgt.1
  let y0 := tgt.2
  let numerator := |(y2 - y1) * x0 - (x2 - x1) * y0 + x2 * y1 - y2 * x1|
  let denominator := Real.sqrt ((y2 - y1) ^ 2 + (x2 - x1) ^ 2)
  dvDiv (.fin numerator) (.fin denominator)

/-- `Targeter::calculateDirectDistanceToTarget`: planar distance between
the projected current and target positions (the radicand is a sum of
squares, so the C `sqrt` never sees a negative input here). -/
noncomputable def calculateDirectDistanceToTarget (s : State) : ℝ :=
  let cur := convertDeg2UTM (convertDecimalDegMinToDegree s.currentLatitude)
    (convertDecimalDegMinToDegree s.currentLongitude)
  let tgt := convertDeg2UTM (convertDecimalDegMinToDegree s.targetLatitude)
    (convertDecimalDegMinToDegree s.targetLongitude)
  Real.sqrt ((tgt.1 - cur.1) ^ 2 + (tgt.2 - cur.2) ^ 2)

/-- `Targeter::calculatePathDistanceToTarget`: reads the stored
`lateralError` member; the radicand can be negative, in which case the C
`sqrt` yields NaN. -/
noncomputable def calculatePathDistanceToTarget (s : State) : DVal :=
  dsqrt ((calculateDirectDistanceToTarget s) ^ 2 - s.lateralError ^ 2)

/-- `Targeter::calculateDropDistance`: ballistic lead distance with the
height delta clamped at zero (the clamp keeps the radicand non-negative,
so the C `sqrt` is total here). -/
noncomputable def calculateDropDistance (s : State) : ℝ :=
  let heightm := s.currentAltitude - s.targetAltitude
  let heightm := if heightm < 0 then 0 else heightm
  let fallTime := Real.sqrt (2 * heightm / 9.807)
  s.currentVelocity * fallTime * CORRECTION_FACTOR

/-- `Targeter::dropDistanceToTarget`: remaining distance to the optimal
release point. -/
noncomputable def dropDistanceToTarget (s : State) : DVal :=
  dvSub (calculatePathDistanceToTarget s) (.fin (calculateDropDistance s))

/-- `Targeter::calculateTimeToDrop`: `now` stands for `millis()`. -/
noncomputable def calculateTimeToDrop (s : State) (now : ℝ) : DVal :=
  let distRemaining := dropDistanceToTarget s
  dvDiv (dvSub distRemaining
      (.fin (s.currentVelocity * ((now - s.currentDataAge) / 1000))))
    (.fin s.currentVelocity)

/-- `Targeter::recalculate`: the two `calculate` calls discard their
results, exactly as in the source. -/
noncomputable def recalculate (s : State) (now : ℝ) : Bool :=
  let _ := calculateLateralError s
  let _ := calculateTimeToDrop s now
  dvLt (dropDistanceToTarget s) (.fin s.targetRaduis)

/-- `Targeter::getLateralError`: returns the stored member. -/
def getLateralError (s : State) : ℝ := s.lateralError

/-- `Targeter::getTimeToDrop`: returns the stored member. -/
def getTimeToDrop (s : State) : ℝ := s.timeToDrop

/-- `Targeter::setCurrentData`: stores the new aircraft telemetry, calls
the two `calculate` functions (whose results are discarded, as in the
source), and returns the release decision. -/
noncomputable def setCurrentData (s : State)
    (lat lon alt vel hdg age now : ℝ) : State × Bool :=
  let s' := { s with
    currentLatitude := lat
    currentLongitude := lon
    currentAltitude := alt
    currentVelocity := vel
    currentHeading := hdg
    currentDataAge := age }
  let _ := calculateLateralError s'
  let _ := calculateTimeToDrop s' now
  (s', dvLt (dropDistanceToTarget s') (.fin s'.targetRaduis))

/-- `Targeter::setTargetData`: stores the new target, calls the two
`calculate` functions (results discarded, as in the source), and returns
no decision. -/
noncomputable def setTargetData (s : State) (tlat tlon talt now : ℝ) : State :=
  let s' := { s with
    targetLatitude := tlat
    targetLongitude := tlon
    targetAltitude := talt }
  let _ := calculateLateralError s'
  let _ := calculateTimeToDrop s' now
  s'

/-- Spec-side alphabet for the latitude bands: letters C through X with I
and O omitted. -/
def specBandLetters : List Char :=
  ['C', 'D', 'E', 'F', 'G', 'H', 'J', 'K', 'L', 'M',
   'N', 'P', 'Q', 'R', 'S', 'T', 'U', 'V', 'W', 'X']

/-- A stationary sample state (zero ground velocity). -/
noncomputable def stationaryState : State :=
  { currentLatitude := 4413.546
    currentLongitude := -7629.504
    currentAltitude := 100
    currentVelocity := 0
    currentHeading := 360
    currentDataAge := 0
    targetLatitude := 4413.688
    targetLongitude := -7629.518
    targetAltitude := 0
    targetRaduis := 5
    lateralError := 0
    timeToDrop := 0 }

/-- Dividing any `double` value by (exactly) zero never yields a finite
result: a nonzero finite numerator gives an infinity, 0/0 gives NaN, and
special-value numerators stay special. -/
lemma dvDiv_fin_zero_not_finite (a : DVal) :
    (dvDiv a (DVal.fin 0)).isFinite = false := by
  rcases a with x | _ | _ | _ <;> simp only [dvDiv, DVal.isFinite] <;>
    split_ifs <;> rfl

/-- C1: contrary to the specification, neither `setCurrentData` nor
`setTargetData` stores the freshly recomputed diagnostics: the results of
the `calculateLateralError` and `calculateTimeToDrop` calls are discarded,
so the `lateralError`/`timeToDrop` members read by `getLateralError`,
`getTimeToDrop` are left unchanged by every mutation, and
`calculatePathDistanceToTarget` keeps consuming the stale `lateralError`
field of the pre-existing state. -/
theorem setters_discard_recomputed_diagnostics (s : State)
    (lat lon alt vel hdg age now tlat tlon talt tnow : ℝ) :
    getLateralError (setCurrentData s lat lon alt vel hdg age now).1 =
        getLateralError s ∧
      getTimeToDrop (setCurrentData s lat lon alt vel hdg age now).1 =
        getTimeToDrop s ∧
      getLateralError (setTargetData s tlat tlon talt tnow) =
        getLateralError s ∧
      getTimeToDrop (setTargetData s tlat tlon talt tnow) = getTimeToDrop s ∧
      calculatePathDistanceToTarget
          (setCurrentData s lat lon alt vel hdg age now).1 =
        dsqrt ((calculateDirectDistanceToTarget
            (setCurrentData s lat lon alt vel hdg age now).1) ^ 2 -
          s.lateralError ^ 2) :=
  ⟨rfl, rfl, rfl, rfl, rfl⟩

/-- C4: the release decision is `dropDistanceToTarget < targetRaduis` with
`dropDistanceToTarget = pathDistance − dropLeadDistance`; `setCurrentData`
stores the new aircraft state and returns that boolean, `recalculate`
returns it for the stored state, and `setTargetData` stores the new target
and returns only the state, no decision. -/
theorem release_decision_structure (s : State)
    (lat lon alt vel hdg age now tlat tlon talt : ℝ) :
    (setCurrentData s lat lon alt vel hdg age now).1 =
        { s with
          currentLatitude := lat
          currentLongitude := lon
          currentAltitude := alt
          currentVelocity := vel
          currentHeading := hdg
          currentDataAge := age } ∧
      (setCurrentData s lat lon alt vel hdg age now).2 =
        dvLt (dropDistanceToTarget
            (setCurrentData s lat lon alt vel hdg age now).1)
          (DVal.fin s.targetRaduis) ∧
      recalculate s now =
        dvLt (dropDistanceToTarget s) (DVal.fin s.targetRaduis) ∧
      dropDistanceToTarget s =
        dvSub (calculatePathDistanceToTarget s)
          (DVal.fin (calculateDropDistance s)) ∧
      setTargetData s tlat tlon talt now =
        { s with
          targetLatitude := tlat
          targetLongitude := tlon
          targetAltitude := talt } :=
  ⟨rfl, rfl, rfl, rfl, rfl⟩

/-- C10: the release decision returned by `recalculate` and by
`setCurrentData` does not depend on the current clock value `millis()`:
two different clock readings give the identical boolean for the same
stored state and telemetry (the clock reaches only the discarded
time-to-drop computation). -/
theorem release_decision_independent_of_clock (s : State)
    (lat lon alt vel hdg age t1 t2 : ℝ) :
    recalculate s t1 = recalculate s t2 ∧
      (setCurrentData s lat lon alt vel hdg age t1).2 =
        (setCurrentData s lat lon alt vel hdg age t2).2 :=
  ⟨rfl, rfl⟩

/-- C5: with zero current velocity, `calculateTimeToDrop` divides by zero
and yields a non-finite IEEE value (an infinity or NaN), never a finite
number such as zero; nothing in the engine guards this case. -/
theorem timeToDrop_zero_velocity_not_finite (s : State) (now : ℝ)
    (hv : s.currentVelocity = 0) :
    (calculateTimeToDrop s now).isFinite = false := by
  have h : calculateTimeToDrop s now =
      dvDiv (dvSub (dropDistanceToTarget s)
        (DVal.fin (s.currentVelocity * ((now - s.currentDataAge) / 1000))))
      (DVal.fin s.currentVelocity) := rfl
  rw [h, hv]
  exact dvDiv_fin_zero_not_finite _

theorem timeToDrop_zero_velocity_not_finite_witness :
    (calculateTimeToDrop stationaryState 1000).isFinite = false :=
  timeToDrop_zero_velocity_not_finite stationaryState 1000 rfl

/-- C3 counterexample: at the packed value −150 the conversion (whose
`(int)` cast truncates toward zero) differs from the floor-based formula
of the claim: the code yields −1 − 50/60 while the formula yields
−2 + 50/60. -/
theorem convertDecimalDegMin_floor_formula_fails_negative :
    convertDecimalDegMinToDegree (-150) ≠
      ((⌊(-150 : ℝ) / 100⌋ : ℤ) : ℝ) +
        ((-150 : ℝ) - 100 * ((⌊(-150 : ℝ) / 100⌋ : ℤ) : ℝ)) / 60 := by
  have hc : cIntCast ((-150 : ℝ) / 100) = -1 := by
    unfold cIntCast
    rw [if_neg (by norm_num)]
    rw [Int.ceil_eq_iff]
    constructor <;> norm_num
  have h1 : convertDecimalDegMinToDegree (-150) =
      ((cIntCast ((-150 : ℝ) / 100) : ℤ) : ℝ) +
        ((-150 : ℝ) - 100 * ((cIntCast ((-150 : ℝ) / 100) : ℤ) : ℝ)) / 60 := rfl
  have hf : ⌊(-150 : ℝ) / 100⌋ = -2 := by
    rw [Int.floor_eq_iff]
    constructor <;> norm_num
  rw [h1, hc, hf]
  norm_num

/-- C3 amended: the conversion equals the truncation-toward-zero variant
of the formula for every input (truncation and floor agree on non-negative
inputs, so the claim's floor formula holds for every non-negative packed
value, but not for the negative south/west encodings). -/
theorem convertDecimalDegMin_trunc_formula (v : ℝ) :
    convertDecimalDegMinToDegree v =
        ((cIntCast (v / 100) : ℤ) : ℝ) +
          (v - 100 * ((cIntCast (v / 100) : ℤ) : ℝ)) / 60 ∧
      (0 ≤ v →
        convertDecimalDegMinToDegree v =
          ((⌊v / 100⌋ : ℤ) : ℝ) + (v - 100 * ((⌊v / 100⌋ : ℤ) : ℝ)) / 60) := by
  refine ⟨rfl, fun hv => ?_⟩
  have ht : cIntCast (v / 100) = ⌊v / 100⌋ := by
    unfold cIntCast
    rw [if_pos (by positivity)]
  have h1 : convertDecimalDegMinToDegree v =
      ((cIntCast (v / 100) : ℤ) : ℝ) +
        (v - 100 * ((cIntCast (v / 100) : ℤ) : ℝ)) / 60 := rfl
  rw [h1, ht]

theorem convertDecimalDegMin_trunc_formula_witness :
    convertDecimalDegMinToDegree 250 =
      ((⌊(250 : ℝ) / 100⌋ : ℤ) : ℝ) +
        ((250 : ℝ) - 100 * ((⌊(250 : ℝ) / 100⌋ : ℤ) : ℝ)) / 60 :=
  (convertDecimalDegMin_trunc_formula 250).2 (by norm_num)

/-- C6: `calculateDropDistance` is
velocity · sqrt(2 · max(heightDelta, 0) / 9.807) · 0.9, and it returns 0
(not NaN) whenever the height delta is negative. -/
theorem dropDistance_formula_and_negative_delta (s : State) :
    calculateDropDistance s =
        s.currentVelocity *
          Real.sqrt (2 * max (s.currentAltitude - s.targetAltitude) 0 / 9.807) *
          CORRECTION_FACTOR ∧
      (s.currentAltitude - s.targetAltitude < 0 →
        calculateDropDistance s = 0) := by
  have hm : (if s.currentAltitude - s.targetAltitude < 0 then (0 : ℝ)
      else s.currentAltitude - s.targetAltitude) =
      max (s.currentAltitude - s.targetAltitude) 0 := by
    rcases lt_or_le (s.currentAltitude - s.targetAltitude) 0 with h | h
    · rw [if_pos h, max_eq_right h.le]
    · rw [if_neg (not_lt.mpr h), max_eq_left h]
  constructor
  · show s.currentVelocity *
        Real.sqrt (2 * (if s.currentAltitude - s.targetAltitude < 0 then (0 : ℝ)
          else s.currentAltitude - s.targetAltitude) / 9.807) *
        CORRECTION_FACTOR = _
    rw [hm]
  · intro h
    show s.currentVelocity *
        Real.sqrt (2 * (if s.currentAltitude - s.targetAltitude < 0 then (0 : ℝ)
          else s.currentAltitude - s.targetAltitude) / 9.807) *
        CORRECTION_FACTOR = 0
    rw [if_pos h]
    simp [Real.sqrt_zero]

/-- Sample state whose target sits 5 m above the aircraft. -/
noncomputable def climbState : State :=
  { currentLatitude := 0
    currentLongitude := 0
    currentAltitude := 0
    currentVelocity := 10
    currentHeading := 0
    currentDataAge := 0
    targetLatitude := 0
    targetLongitude := 0
    targetAltitude := 5
    targetRaduis := 5
    lateralError := 0
    timeToDrop := 0 }

theorem dropDistance_negative_delta_witness :
    calculateDropDistance climbState = 0 :=
  (dropDistance_formula_and_negative_delta climbState).2
    (by show (0 : ℝ) - 5 < 0; norm_num)

/-- The point-to-line computation after projection: for an arbitrary
numerator the synthetic 2000 m forward point makes the denominator exactly
2000, so the final IEEE division is by a nonzero finite value and yields a
non-negative finite quotient. -/
lemma lateral_core (a cE cN t : ℝ) :
    ∃ r, dvDiv (DVal.fin |a|)
        (DVal.fin (Real.sqrt ((cN - (cN + Real.sin t * 2000)) ^ 2 +
          (cE - (cE + Real.cos t * 2000)) ^ 2))) = DVal.fin r ∧ 0 ≤ r := by
  have hrad : (cN - (cN + Real.sin t * 2000)) ^ 2 +
      (cE - (cE + Real.cos t * 2000)) ^ 2 = 4000000 := by
    have hs := Real.sin_sq_add_cos_sq t
    nlinarith [hs]
  have hden : Real.sqrt ((cN - (cN + Real.sin t * 2000)) ^ 2 +
      (cE - (cE + Real.cos t * 2000)) ^ 2) = 2000 := by
    rw [hrad, show (4000000 : ℝ) = 2000 ^ 2 by norm_num,
      Real.sqrt_sq (by norm_num : (0 : ℝ) ≤ 2000)]
  refine ⟨|a| / 2000, ?_, div_nonneg (abs_nonneg a) (by norm_num)⟩
  rw [hden]
  simp only [dvDiv]
  rw [if_neg (by norm_num : (2000 : ℝ) ≠ 0)]

/-- C9: for every state (zero velocity included — only the stored heading
matters), `calculateLateralError` returns a finite, non-negative value. -/
theorem lateralError_nonneg (s : State) :
    ∃ r, calculateLateralError s = DVal.fin r ∧ 0 ≤ r := by
  unfold calculateLateralError
  exact lateral_core _ _ _ _

/-- State used for the C2 demonstration: the aircraft is exactly over the
target (direct distance 0) while the stored `lateralError` member is 5. -/
noncomputable def overTargetState : State :=
  { currentLatitude := 4413.546
    currentLongitude := -7629.504
    currentAltitude := 100
    currentVelocity := 10
    currentHeading := 360
    currentDataAge := 0
    targetLatitude := 4413.546
    targetLongitude := -7629.504
    targetAltitude := 0
    targetRaduis := 5
    lateralError := 5
    timeToDrop := 0 }

/-- C2: contrary to the specification, `calculatePathDistanceToTarget`
does not clamp a negative radicand to zero: when the stored lateral error
exceeds the direct distance the C `sqrt` receives a negative radicand and
the function returns NaN, demonstrated here at a concrete state. -/
theorem pathDistance_nan_on_negative_radicand :
    (calculateDirectDistanceToTarget overTargetState) ^ 2 -
        overTargetState.lateralError ^ 2 < 0 ∧
      calculatePathDistanceToTarget overTargetState = DVal.nan := by
  have hd : calculateDirectDistanceToTarget overTargetState = 0 := by
    unfold calculateDirectDistanceToTarget overTargetState
    simp [sub_self, Real.sqrt_zero]
  have hlat : overTargetState.lateralError = 5 := rfl
  constructor
  · rw [hd, hlat]
    norm_num
  · show dsqrt ((calculateDirectDistanceToTarget overTargetState) ^ 2 -
      overTargetState.lateralError ^ 2) = DVal.nan
    rw [hd, hlat]
    unfold dsqrt
    rw [if_pos (by norm_num)]

/-- Level-flight state with a (non-physical but representable) negative
ground velocity; zero height delta. -/
noncomputable def reverseLevelState : State :=
  { currentLatitude := 0
    currentLongitude := 0
    currentAltitude := 0
    currentVelocity := -1
    currentHeading := 0
    currentDataAge := 0
    targetLatitude := 0
    targetLongitude := 0
    targetAltitude := 0
    targetRaduis := 5
    lateralError := 0
    timeToDrop := 0 }

/-- The same state with a larger height delta (9.807/2 m). -/
noncomputable def reverseHighState : State :=
  { reverseLevelState with currentAltitude := 9.807 / 2 }

/-- C8 counterexample: with the (un-excluded) negative velocity −1 m/s,
raising the height delta from 0 to 9.807/2 m strictly lowers
`calculateDropDistance` (0 versus −0.9), so the height-delta monotonicity
does not hold for every pair of states. -/
theorem dropDistance_height_monotonicity_fails_negative_velocity :
    reverseLevelState.currentVelocity = reverseHighState.currentVelocity ∧
      reverseLevelState.currentAltitude - reverseLevelState.targetAltitude ≤
        reverseHighState.currentAltitude - reverseHighState.targetAltitude ∧
      calculateDropDistance reverseHighState <
        calculateDropDistance reverseLevelState := by
  refine ⟨rfl, by show (0 : ℝ) - 0 ≤ 9.807 / 2 - 0; norm_num, ?_⟩
  have h1 : calculateDropDistance reverseLevelState = 0 := by
    show (-1 : ℝ) *
        Real.sqrt (2 * (if (0 : ℝ) - 0 < 0 then 0 else (0 : ℝ) - 0) / 9.807) *
        CORRECTION_FACTOR = 0
    rw [if_neg (by norm_num)]
    simp [Real.sqrt_zero]
  have h2 : calculateDropDistance reverseHighState =
      -1 * 1 * CORRECTION_FACTOR := by
    show (-1 : ℝ) *
        Real.sqrt (2 * (if (9.807 / 2 : ℝ) - 0 < 0 then 0
          else (9.807 / 2 : ℝ) - 0) / 9.807) *
        CORRECTION_FACTOR = -1 * 1 * CORRECTION_FACTOR
    rw [if_neg (by norm_num)]
    rw [show (2 * ((9.807 / 2 : ℝ) - 0) / 9.807) = 1 by norm_num,
      Real.sqrt_one]
  rw [h1, h2]
  unfold CORRECTION_FACTOR
  norm_num

/-- C8 amended: the drop lead distance is monotone non-decreasing in
velocity for a fixed height delta unconditionally, and monotone
non-decreasing in height delta for a fixed velocity provided the shared
velocity is non-negative (for a negative velocity the ordering reverses,
see the counterexample). -/
theorem dropDistance_monotone (s1 s2 : State) :
    (s1.currentAltitude - s1.targetAltitude =
        s2.currentAltitude - s2.targetAltitude →
      s1.currentVelocity ≤ s2.currentVelocity →
      calculateDropDistance s1 ≤ calculateDropDistance s2) ∧
      (s1.currentVelocity = s2.currentVelocity →
        0 ≤ s1.currentVelocity →
        s1.currentAltitude - s1.targetAltitude ≤
          s2.currentAltitude - s2.targetAltitude →
        calculateDropDistance s1 ≤ calculateDropDistance s2) := by
  have e1 : calculateDropDistance s1 = s1.currentVelocity *
      Real.sqrt (2 * (if s1.currentAltitude - s1.targetAltitude < 0 then (0 : ℝ)
        else s1.currentAltitude - s1.targetAltitude) / 9.807) *
      CORRECTION_FACTOR := rfl
  have e2 : calculateDropDistance s2 = s2.currentVelocity *
      Real.sqrt (2 * (if s2.currentAltitude - s2.targetAltitude < 0 then (0 : ℝ)
        else s2.currentAltitude - s2.targetAltitude) / 9.807) *
      CORRECTION_FACTOR := rfl
  have hcf : (0 : ℝ) ≤ CORRECTION_FACTOR := by
    unfold CORRECTION_FACTOR; norm_num
  constructor
  · intro hd hv
    rw [e1, e2, hd]
    exact mul_le_mul_of_nonneg_right
      (mul_le_mul_of_nonneg_right hv (Real.sqrt_nonneg _)) hcf
  · intro hv hv0 hd
    rw [e1, e2, ← hv]
    set m1 := (if s1.currentAltitude - s1.targetAltitude < 0 then (0 : ℝ)
      else s1.currentAltitude - s1.targetAltitude) with hm1
    set m2 := (if s2.currentAltitude - s2.targetAltitude < 0 then (0 : ℝ)
      else s2.currentAltitude - s2.targetAltitude) with hm2
    have hclamp : m1 ≤ m2 := by
      rw [hm1, hm2]
      split_ifs with ha hb hc
      · exact le_refl 0
      · exact not_lt.mp hb
      · exact absurd (lt_of_le_of_lt hd hc) ha
      · exact hd
    have hsq : Real.sqrt (2 * m1 / 9.807) ≤ Real.sqrt (2 * m2 / 9.807) :=
      Real.sqrt_le_sqrt ((div_le_div_iff_of_pos_right (by norm_num)).mpr (by linarith))
    exact mul_le_mul_of_nonneg_right
      (mul_le_mul_of_nonneg_left hsq hv0) hcf

theorem dropDistance_monotone_witness :
    calculateDropDistance reverseLevelState ≤
      calculateDropDistance
        { reverseLevelState with currentVelocity := 3 } :=
  (dropDistance_monotone reverseLevelState
      { reverseLevelState with currentVelocity := 3 }).1 rfl
    (by show (-1 : ℝ) ≤ 3; norm_num)

/-- Per-letter characterizations of the band ladder. -/
lemma utmLetter_C (lat : ℝ) (h : lat < -72) : utmLetter lat = 'C' := by
  unfold utmLetter
  rw [if_pos h]

lemma utmLetter_D (lat : ℝ) (hlo : -72 ≤ lat) (hhi : lat < -64) : utmLetter lat = 'D' := by
  unfold utmLetter
  rw [if_neg (show ¬ lat < -72 by linarith),
    if_pos hhi]

lemma utmLetter_E (lat : ℝ) (hlo : -64 ≤ lat) (hhi : lat < -56) : utmLetter lat = 'E' := by
  unfold utmLetter
  rw [if_neg (show ¬ lat < -72 by linarith),
    if_neg (show ¬ lat < -64 by linarith),
    if_pos hhi]

lemma utmLetter_F (lat : ℝ) (hlo : -56 ≤ lat) (hhi : lat < -48) : utmLetter lat = 'F' := by
  unfold utmLetter
  rw [if_neg (show ¬ lat < -72 by linarith),
    if_neg (show ¬ lat < -64 by linarith),
    if_neg (show ¬ lat < -56 by linarith),
    if_pos hhi]

lemma utmLetter_G (lat : ℝ) (hlo : -48 ≤ lat) (hhi : lat < -40) : utmLetter lat = 'G' := by
  unfold utmLetter
  rw [if_neg (show ¬ lat < -72 by linarith),
    if_neg (show ¬ lat < -64 by linarith),
    if_neg (show ¬ lat < -56 by linarith),
    if_neg (show ¬ lat < -48 by linarith),
    if_pos hhi]

lemma utmLetter_H (lat : ℝ) (hlo : -40 ≤ lat) (hhi : lat < -32) : utmLetter lat = 'H' := by
  unfold utmLetter
  rw [if_neg (show ¬ lat < -72 by linarith),
    if_neg (show ¬ lat < -64 by linarith),
    if_neg (show ¬ lat < -56 by linarith),
    if_neg (show ¬ lat < -48 by linarith),
    if_neg (show ¬ lat < -40 by linarith),
    if_pos hhi]

lemma utmLetter_J (lat : ℝ) (hlo : -32 ≤ lat) (hhi : lat < -24) : utmLetter lat = 'J' := by
  unfold utmLetter
  rw [if_neg (show ¬ lat < -72 by linarith),
    if_neg (show ¬ lat < -64 by linarith),
    if_neg (show ¬ lat < -56 by linarith),
    if_neg (show ¬ lat < -48 by linarith),
    if_neg (show ¬ lat < -40 by linarith),
    if_neg (show ¬ lat < -32 by linarith),
    if_pos hhi]

lemma utmLetter_K (lat : ℝ) (hlo : -24 ≤ lat) (hhi : lat < -16) : utmLetter lat = 'K' := by
  unfold utmLetter
  rw [if_neg (show ¬ lat < -72 by linarith),
    if_neg (show ¬ lat < -64 by linarith),
    if_neg (show ¬ lat < -56 by linarith),
    if_neg (show ¬ lat < -48 by linarith),
    if_neg (show ¬ lat < -40 by linarith),
    if_neg (show ¬ lat < -32 by linarith),
    if_neg (show ¬ lat < -24 by linarith),
    if_pos hhi]

lemma utmLetter_L (lat : ℝ) (hlo : -16 ≤ lat) (hhi : lat < -8) : utmLetter lat = 'L' := by
  unfold utmLetter
  rw [if_neg (show ¬ lat < -72 by linarith),
    if_neg (show ¬ lat < -64 by linarith),
    if_neg (show ¬ lat < -56 by linarith),
    if_neg (show ¬ lat < -48 by linarith),
    if_neg (show ¬ lat < -40 by linarith),
    if_neg (show ¬ lat < -32 by linarith),
    if_neg (show ¬ lat < -24 by linarith),
    if_neg (show ¬ lat < -16 by linarith),
    if_pos hhi]

lemma utmLetter_M (lat : ℝ) (hlo : -8 ≤ lat) (hhi : lat < 0) : utmLetter lat = 'M' := by
  unfold utmLetter
  rw [if_neg (show ¬ lat < -72 by linarith),
    if_neg (show ¬ lat < -64 by linarith),
    if_neg (show ¬ lat < -56 by linarith),
    if_neg (show ¬ lat < -48 by linarith),
    if_neg (show ¬ lat < -40 by linarith),
    if_neg (show ¬ lat < -32 by linarith),
    if_neg (show ¬ lat < -24 by linarith),
    if_neg (show ¬ lat < -16 by linarith),
    if_neg (show ¬ lat < -8 by linarith),
    if_pos hhi]

lemma utmLetter_N (lat : ℝ) (hlo : 0 ≤ lat) (hhi : lat < 8) : utmLetter lat = 'N' := by
  unfold utmLetter
  rw [if_neg (show ¬ lat < -72 by linarith),
    if_neg (show ¬ lat < -64 by linarith),
    if_neg (show ¬ lat < -56 by linarith),
    if_neg (show ¬ lat < -48 by linarith),
    if_neg (show ¬ lat < -40 by linarith),
    if_neg (show ¬ lat < -32 by linarith),
    if_neg (show ¬ lat < -24 by linarith),
    if_neg (show ¬ lat < -16 by linarith),
    if_neg (show ¬ lat < -8 by linarith),
    if_neg (show ¬ lat < 0 by linarith),
    if_pos hhi]

lemma utmLetter_P (lat : ℝ) (hlo : 8 ≤ lat) (hhi : lat < 16) : utmLetter lat = 'P' := by
  unfold utmLetter
  rw [if_neg (show ¬ lat < -72 by linarith),
    if_neg (show ¬ lat < -64 by linarith),
    if_neg (show ¬ lat < -56 by linarith),
    if_neg (show ¬ lat < -48 by linarith),
    if_neg (show ¬ lat < -40 by linarith),
    if_neg (show ¬ lat < -32 by linarith),
    if_neg (show ¬ lat < -24 by linarith),
    if_neg (show ¬ lat < -16 by linarith),
    if_neg (show ¬ lat < -8 by linarith),
    if_neg (show ¬ lat < 0 by linarith),
    if_neg (show ¬ lat < 8 by linarith),
    if_pos hhi]

lemma utmLetter_Q (lat : ℝ) (hlo : 16 ≤ lat) (hhi : lat < 24) : utmLetter lat = 'Q' := by
  unfold utmLetter
  rw [if_neg (show ¬ lat < -72 by linarith),
    if_neg (show ¬ lat < -64 by linarith),
    if_neg (show ¬ lat < -56 by linarith),
    if_neg (show ¬ lat < -48 by linarith),
    if_neg (show ¬ lat < -40 by linarith),
    if_neg (show ¬ lat < -32 by linarith),
    if_neg (show ¬ lat < -24 by linarith),
    if_neg (show ¬ lat < -16 by linarith),
    if_neg (show ¬ lat < -8 by linarith),
    if_neg (show ¬ lat < 0 by linarith),
    if_neg (show ¬ lat < 8 by linarith),
    if_neg (show ¬ lat < 16 by linarith),
    if_pos hhi]

lemma utmLetter_R (lat : ℝ) (hlo : 24 ≤ lat) (hhi : lat < 32) : utmLetter lat = 'R' := by
  unfold utmLetter
  rw [if_neg (show ¬ lat < -72 by linarith),
    if_neg (show ¬ lat < -64 by linarith),
    if_neg (show ¬ lat < -56 by linarith),
    if_neg (show ¬ lat < -48 by linarith),
    if_neg (show ¬ lat < -40 by linarith),
    if_neg (show ¬ lat < -32 by linarith),
    if_neg (show ¬ lat < -24 by linarith),
    if_neg (show ¬ lat < -16 by linarith),
    if_neg (show ¬ lat < -8 by linarith),
    if_neg (show ¬ lat < 0 by linarith),
    if_neg (show ¬ lat < 8 by linarith),
    if_neg (show ¬ lat < 16 by linarith),
    if_neg (show ¬ lat < 24 by linarith),
    if_pos hhi]

lemma utmLetter_S (lat : ℝ) (hlo : 32 ≤ lat) (hhi : lat < 40) : utmLetter lat = 'S' := by
  unfold utmLetter
  rw [if_neg (show ¬ lat < -72 by linarith),
    if_neg (show ¬ lat < -64 by linarith),
    if_neg (show ¬ lat < -56 by linarith),
    if_neg (show ¬ lat < -48 by linarith),
    if_neg (show ¬ lat < -40 by linarith),
    if_neg (show ¬ lat < -32 by linarith),
    if_neg (show ¬ lat < -24 by linarith),
    if_neg (show ¬ lat < -16 by linarith),
    if_neg (show ¬ lat < -8 by linarith),
    if_neg (show ¬ lat < 0 by linarith),
    if_neg (show ¬ lat < 8 by linarith),
    if_neg (show ¬ lat < 16 by linarith),
    if_neg (show ¬ lat < 24 by linarith),
    if_neg (show ¬ lat < 32 by linarith),
    if_pos hhi]

lemma utmLetter_T (lat : ℝ) (hlo : 40 ≤ lat) (hhi : lat < 48) : utmLetter lat = 'T' := by
  unfold utmLetter
  rw [if_neg (show ¬ lat < -72 by linarith),
    if_neg (show ¬ lat < -64 by linarith),
    if_neg (show ¬ lat < -56 by linarith),
    if_neg (show ¬ lat < -48 by linarith),
    if_neg (show ¬ lat < -40 by linarith),
    if_neg (show ¬ lat < -32 by linarith),
    if_neg (show ¬ lat < -24 by linarith),
    if_neg (show ¬ lat < -16 by linarith),
    if_neg (show ¬ lat < -8 by linarith),
    if_neg (show ¬ lat < 0 by linarith),
    if_neg (show ¬ lat < 8 by linarith),
    if_neg (show ¬ lat < 16 by linarith),
    if_neg (show ¬ lat < 24 by linarith),
    if_neg (show ¬ lat < 32 by linarith),
    if_neg (show ¬ lat < 40 by linarith),
    if_pos hhi]

lemma utmLetter_U (lat : ℝ) (hlo : 48 ≤ lat) (hhi : lat < 56) : utmLetter lat = 'U' := by
  unfold utmLetter
  rw [if_neg (show ¬ lat < -72 by linarith),
    if_neg (show ¬ lat < -64 by linarith),
    if_neg (show ¬ lat < -56 by linarith),
    if_neg (show ¬ lat < -48 by linarith),
    if_neg (show ¬ lat < -40 by linarith),
    if_neg (show ¬ lat < -32 by linarith),
    if_neg (show ¬ lat < -24 by linarith),
    if_neg (show ¬ lat < -16 by linarith),
    if_neg (show ¬ lat < -8 by linarith),
    if_neg (show ¬ lat < 0 by linarith),
    if_neg (show ¬ lat < 8 by linarith),
    if_neg (show ¬ lat < 16 by linarith),
    if_neg (show ¬ lat < 24 by linarith),
    if_neg (show ¬ lat < 32 by linarith),
    if_neg (show ¬ lat < 40 by linarith),
    if_neg (show ¬ lat < 48 by linarith),
    if_pos hhi]

lemma utmLetter_V (lat : ℝ) (hlo : 56 ≤ lat) (hhi : lat < 64) : utmLetter lat = 'V' := by
  unfold utmLetter
  rw [if_neg (show ¬ lat < -72 by linarith),
    if_neg (show ¬ lat < -64 by linarith),
    if_neg (show ¬ lat < -56 by linarith),
    if_neg (show ¬ lat < -48 by linarith),
    if_neg (show ¬ lat < -40 by linarith),
    if_neg (show ¬ lat < -32 by linarith),
    if_neg (show ¬ lat < -24 by linarith),
    if_neg (show ¬ lat < -16 by linarith),
    if_neg (show ¬ lat < -8 by linarith),
    if_neg (show ¬ lat < 0 by linarith),
    if_neg (show ¬ lat < 8 by linarith),
    if_neg (show ¬ lat < 16 by linarith),
    if_neg (show ¬ lat < 24 by linarith),
    if_neg (show ¬ lat < 32 by linarith),
    if_neg (show ¬ lat < 40 by linarith),
    if_neg (show ¬ lat < 48 by linarith),
    if_neg (show ¬ lat < 56 by linarith),
    if_pos hhi]

lemma utmLetter_W (lat : ℝ) (hlo : 64 ≤ lat) (hhi : lat < 72) : utmLetter lat = 'W' := by
  unfold utmLetter
  rw [if_neg (show ¬ lat < -72 by linarith),
    if_neg (show ¬ lat < -64 by linarith),
    if_neg (show ¬ lat < -56 by linarith),
    if_neg (show ¬ lat < -48 by linarith),
    if_neg (show ¬ lat < -40 by linarith),
    if_neg (show ¬ lat < -32 by linarith),
    if_neg (show ¬ lat < -24 by linarith),
    if_neg (show ¬ lat < -16 by linarith),
    if_neg (show ¬ lat < -8 by linarith),
    if_neg (show ¬ lat < 0 by linarith),
    if_neg (show ¬ lat < 8 by linarith),
    if_neg (show ¬ lat < 16 by linarith),
    if_neg (show ¬ lat < 24 by linarith),
    if_neg (show ¬ lat < 32 by linarith),
    if_neg (show ¬ lat < 40 by linarith),
    if_neg (show ¬ lat < 48 by linarith),
    if_neg (show ¬ lat < 56 by linarith),
    if_neg (show ¬ lat < 64 by linarith),
    if_pos hhi]

lemma utmLetter_X (lat : ℝ) (h : 72 ≤ lat) : utmLetter lat = 'X' := by
  unfold utmLetter
  rw [if_neg (show ¬ lat < -72 by linarith),
    if_neg (show ¬ lat < -64 by linarith),
    if_neg (show ¬ lat < -56 by linarith),
    if_neg (show ¬ lat < -48 by linarith),
    if_neg (show ¬ lat < -40 by linarith),
    if_neg (show ¬ lat < -32 by linarith),
    if_neg (show ¬ lat < -24 by linarith),
    if_neg (show ¬ lat < -16 by linarith),
    if_neg (show ¬ lat < -8 by linarith),
    if_neg (show ¬ lat < 0 by linarith),
    if_neg (show ¬ lat < 8 by linarith),
    if_neg (show ¬ lat < 16 by linarith),
    if_neg (show ¬ lat < 24 by linarith),
    if_neg (show ¬ lat < 32 by linarith),
    if_neg (show ¬ lat < 40 by linarith),
    if_neg (show ¬ lat < 48 by linarith),
    if_neg (show ¬ lat < 56 by linarith),
    if_neg (show ¬ lat < 64 by linarith),
    if_neg (show ¬ lat < 72 by linarith)]

/-- C7: the UTM zone is floor(lon/6 + 31); the band-letter ladder has its
boundaries at every multiple of 8 degrees from −72 to 72, lettered C
through X with I and O omitted (everything below −72 is C and everything
at or above 72 is X); and the 10,000,000 m false northing is added exactly
when the selected letter precedes M. -/
theorem deg2utm_zone_band_false_northing :
    (∀ lon : ℝ, utmZone lon = ⌊lon / 6 + 31⌋) ∧
      (∀ lat : ℝ, lat < -72 → utmLetter lat = 'C') ∧
      (∀ lat : ℝ, 72 ≤ lat → utmLetter lat = 'X') ∧
      (∀ (k : ℤ) (lat : ℝ), -9 ≤ k → k ≤ 8 → 8 * (k : ℝ) ≤ lat →
        lat < 8 * ((k : ℝ) + 1) →
        utmLetter lat = specBandLetters.getD (k + 10).toNat 'X') ∧
      (∀ lat lon : ℝ, (convertDeg2UTM lat lon).2 =
        cround ((utmNorthingRaw lat lon +
          if utmLetter lat < 'M' then 10000000 else 0) * 100) * 0.01) := by
  refine ⟨fun lon => rfl, ?_, ?_, ?_, ?_⟩
  · intro lat h
    exact utmLetter_C lat h
  · intro lat h
    exact utmLetter_X lat h
  · intro k lat hk1 hk2 h1 h2
    interval_cases k
    · norm_num at h1 h2
      rw [utmLetter_D lat (by linarith) (by linarith)]
      decide
    · norm_num at h1 h2
      rw [utmLetter_E lat (by linarith) (by linarith)]
      decide
    · norm_num at h1 h2
      rw [utmLetter_F lat (by linarith) (by linarith)]
      decide
    · norm_num at h1 h2
      rw [utmLetter_G lat (by linarith) (by linarith)]
      decide
    · norm_num at h1 h2
      rw [utmLetter_H lat (by linarith) (by linarith)]
      decide
    · norm_num at h1 h2
      rw [utmLetter_J lat (by linarith) (by linarith)]
      decide
    · norm_num at h1 h2
      rw [utmLetter_K lat (by linarith) (by linarith)]
      decide
    · norm_num at h1 h2
      rw [utmLetter_L lat (by linarith) (by linarith)]
      decide
    · norm_num at h1 h2
      rw [utmLetter_M lat (by linarith) (by linarith)]
      decide
    · norm_num at h1 h2
      rw [utmLetter_N lat (by linarith) (by linarith)]
      decide
    · norm_num at h1 h2
      rw [utmLetter_P lat (by linarith) (by linarith)]
      decide
    · norm_num at h1 h2
      rw [utmLetter_Q lat (by linarith) (by linarith)]
      decide
    · norm_num at h1 h2
      rw [utmLetter_R lat (by linarith) (by linarith)]
      decide
    · norm_num at h1 h2
      rw [utmLetter_S lat (by linarith) (by linarith)]
      decide
    · norm_num at h1 h2
      rw [utmLetter_T lat (by linarith) (by linarith)]
      decide
    · norm_num at h1 h2
      rw [utmLetter_U lat (by linarith) (by linarith)]
      decide
    · norm_num at h1 h2
      rw [utmLetter_V lat (by linarith) (by linarith)]
      decide
    · norm_num at h1 h2
      rw [utmLetter_W lat (by linarith) (by linarith)]
      decide
  · intro lat lon
    show cround ((if utmLetter lat < 'M' then utmNorthingRaw lat lon + 10000000
        else utmNorthingRaw lat lon) * 100) * 0.01 = _
    split_ifs
    · rfl
    · norm_num

theorem deg2utm_zone_band_false_northing_witness :
    utmLetter 3 = specBandLetters.getD ((0 : ℤ) + 10).toNat 'X' :=
  deg2utm_zone_band_false_northing.2.2.2.1 0 3 (by norm_num) (by norm_num)
    (by norm_num) (by norm_num)

end Targeter
